import Mathlib

/-!
Shallow embedding of the two source files of the repository,
`custom_components/ads_extended/light.py` and
`custom_components/ads_extended/switch.py`.

The hub (`AdsHub.write_by_name`) is modelled by recording the sequence of
writes a command issues, as a `List Write`.  Python runtime values that can
sit in the notification state slots are modelled by `PyVal`; the built-in
`int(...)` coercion used by `AdsLight.rgbw_color` is modelled by `pyToInt`,
which can fail with a Python exception (`PyExc`).  Logging is modelled by
counting the `_LOGGER.warning` calls a routine performs.
-/

namespace AdsExtended

/-- Python runtime values that can appear in a state slot delivered by the
hub notification callback. -/
inductive PyVal where
  | pyNone
  | pyBool (b : Bool)
  | pyInt (n : Int)
  | pyStr (s : String)
  | pyTuple (xs : List PyVal)
  | pyList (xs : List PyVal)

/-- Python exception classes relevant to `rgbw_color`: the two classes its
`except (ValueError, TypeError)` clause catches, and a catch-all for any
other exception class. -/
inductive PyExc where
  | valueError
  | typeError
  | otherError
  deriving DecidableEq

/-- The Python built-in `int(x)` applied to a `PyVal`: succeeds on ints and
bools, on strings that parse as an integer literal; raises `ValueError` on a
non-numeric string and `TypeError` on `None`, tuples and lists. -/
def pyToInt : PyVal → Except PyExc Int
  | .pyInt n => .ok n
  | .pyBool b => .ok (if b then 1 else 0)
  | .pyStr s =>
    match s.toInt? with
    | some n => .ok n
    | Option.none => .error .valueError
  | .pyNone => .error .typeError
  | .pyTuple _ => .error .typeError
  | .pyList _ => .error .typeError

/-- `isinstance(rgbw, (tuple, list))`. -/
def isTupleOrList : PyVal → Bool
  | .pyTuple _ => true
  | .pyList _ => true
  | _ => false

/-- The elements of a tuple or list value. -/
def seqElems : PyVal → List PyVal
  | .pyTuple xs => xs
  | .pyList xs => xs
  | _ => []

/-- The ADS PLC type tags used by the two platforms. -/
inductive PlcType where
  | PLCTYPE_BOOL
  | PLCTYPE_UINT
  | PLCTYPE_ARR_UINT4
  deriving DecidableEq

/-- A value passed to `AdsHub.write_by_name`. -/
inductive WriteVal where
  | vbool (b : Bool)
  | vint (n : Int)
  | varr (xs : List Int)
  deriving DecidableEq

/-- One `AdsHub.write_by_name(name, value, plctype)` call. -/
structure Write where
  name : String
  value : WriteVal
  plctype : PlcType
  deriving DecidableEq

/-- Conversion of a Python int to a ctypes `c_uint16` array element, as done
by `arr_type(*rgbw_color)`: ctypes truncates to the low 16 bits. -/
def c_uint16 (v : Int) : Int := v % 65536

namespace AdsLight

/-- `clamp` from `AdsLight.rgbw_color`: `max(0, min(255, v))`. -/
def clamp (v : Int) : Int := max 0 (min 255 v)

/-- The tuple `(int(rgbw[0]), int(rgbw[1]), int(rgbw[2]), int(rgbw[3]))`
built inside the `try` block of `AdsLight.rgbw_color`; Python evaluates the
four coercions left to right and the first failure raises. -/
def coerceRGBW (a0 a1 a2 a3 : PyVal) : Except PyExc (Int × Int × Int × Int) :=
  match pyToInt a0 with
  | .error e => .error e
  | .ok r =>
    match pyToInt a1 with
    | .error e => .error e
    | .ok g =>
      match pyToInt a2 with
      | .error e => .error e
      | .ok b =>
        match pyToInt a3 with
        | .error e => .error e
        | .ok w => .ok (r, g, b, w)

/-- `AdsLight.rgbw_color`, reading the stored raw sample
`self._state_dict[STATE_KEY_RGBW_COLOR]`.  The result carries the returned
value (`Option.none` models Python `None`) and the number of
`_LOGGER.warning` calls made; the `Except` layer models an exception
escaping the property (its `except` clause catches only `ValueError` and
`TypeError`). -/
def rgbw_color (rgbw : PyVal) : Except PyExc (Option (Int × Int × Int × Int) × Nat) :=
  match rgbw with
  | .pyNone => .ok (Option.none, 0)
  | v =>
    if isTupleOrList v then
      match seqElems v with
      | [a0, a1, a2, a3] =>
        match coerceRGBW a0 a1 a2 a3 with
        | .error .valueError => .ok (Option.none, 1)
        | .error .typeError => .ok (Option.none, 1)
        | .error e => .error e
        | .ok (r, g, b, w) =>
          let warn : Nat :=
            if 0 ≤ r ∧ r ≤ 255 ∧ 0 ≤ g ∧ g ≤ 255 ∧ 0 ≤ b ∧ b ≤ 255 ∧ 0 ≤ w ∧ w ≤ 255
            then 0 else 1
          .ok (Option.some (clamp r, clamp g, clamp b, clamp w), warn)
      | _ => .ok (Option.none, 1)
    else .ok (Option.none, 1)

/-- The home-assistant light color modes assigned in `AdsLight.__init__`. -/
inductive ColorMode where
  | RGBW
  | BRIGHTNESS
  | ONOFF
  deriving DecidableEq

/-- The `_attr_color_mode` chosen by `AdsLight.__init__` from the two
optional variable names. -/
def lightColorMode (ads_var_brightness ads_var_rgbw_color : Option String) : ColorMode :=
  match ads_var_rgbw_color with
  | some _ => ColorMode.RGBW
  | Option.none =>
    match ads_var_brightness with
    | some _ => ColorMode.BRIGHTNESS
    | Option.none => ColorMode.ONOFF

/-- `AdsLight.__init__` sets `self._state_dict[STATE_KEY_BRIGHTNESS] = None`. -/
def initial_brightness_state : Option Int := Option.none

/-- The `AdsLight.brightness` property: returns
`self._state_dict[STATE_KEY_BRIGHTNESS]` as stored. -/
def brightness (state_brightness : Option Int) : Option Int := state_brightness

/-- The always-issued `write_by_name(self._ads_var, True, PLCTYPE_BOOL)`. -/
def statusWrite (ads_var : String) : Write :=
  ⟨ads_var, .vbool true, .PLCTYPE_BOOL⟩

/-- `AdsLight.turn_on`: the sequence of `write_by_name` calls it issues,
given the configured variable names and the `kwargs` payload
(`ATTR_BRIGHTNESS` and `ATTR_RGBW_COLOR`). -/
def turn_on (ads_var : String) (ads_var_brightness ads_var_rgbw_color : Option String)
    (brightness_kw : Option Int) (rgbw_color_kw : Option (List Int)) : List Write :=
  [statusWrite ads_var]
  ++ (match ads_var_brightness, brightness_kw with
      | some bvar, some b => [⟨bvar, .vint b, .PLCTYPE_UINT⟩]
      | _, _ => [])
  ++ (match ads_var_rgbw_color, rgbw_color_kw with
      | some cvar, some col =>
        if col.length = 4 then
          [⟨cvar, .varr (col.map c_uint16), .PLCTYPE_ARR_UINT4⟩]
        else []
      | _, _ => [])

/-- `AdsLight.turn_off`: issues only
`write_by_name(self._ads_var, False, PLCTYPE_BOOL)`, whatever variables are
configured and whatever the `kwargs` payload carries. -/
def turn_off (ads_var : String) (_ads_var_brightness _ads_var_rgbw_color : Option String)
    (_brightness_kw : Option Int) (_rgbw_color_kw : Option (List Int)) : List Write :=
  [⟨ads_var, .vbool false, .PLCTYPE_BOOL⟩]

end AdsLight

namespace AdsSwitch

/-- `AdsSwitch.turn_off`: writes `True` to the distinct turn-off variable
when one is configured, else `False` to the status variable. -/
def turn_off (ads_var : String) (ads_var_turn_off : Option String) : List Write :=
  match ads_var_turn_off with
  | some offVar => [⟨offVar, .vbool true, .PLCTYPE_BOOL⟩]
  | Option.none => [⟨ads_var, .vbool false, .PLCTYPE_BOOL⟩]

/-- `AdsSwitch.turn_on`: writes `True` to the distinct turn-on variable when
one is configured, else `True` to the status variable. -/
def turn_on (ads_var : String) (ads_var_turn_on : Option String) : List Write :=
  match ads_var_turn_on with
  | some onVar => [⟨onVar, .vbool true, .PLCTYPE_BOOL⟩]
  | Option.none => [⟨ads_var, .vbool true, .PLCTYPE_BOOL⟩]

end AdsSwitch

/-! Helper lemmas. -/

theorem pyToInt_error_cases (v : PyVal) (e : PyExc) (h : pyToInt v = .error e) :
    e = PyExc.valueError ∨ e = PyExc.typeError := by
  cases v <;> simp only [pyToInt] at h
  case pyInt n => exact absurd h (by simp)
  case pyBool b => exact absurd h (by simp)
  case pyStr s =>
    cases hs : s.toInt? <;> rw [hs] at h <;> simp_all
  all_goals simp_all

theorem coerceRGBW_error_cases (a0 a1 a2 a3 : PyVal) (e : PyExc)
    (h : AdsLight.coerceRGBW a0 a1 a2 a3 = .error e) :
    e = PyExc.valueError ∨ e = PyExc.typeError := by
  unfold AdsLight.coerceRGBW at h
  repeat' split at h
  all_goals simp_all
  all_goals (rename_i heq; exact pyToInt_error_cases _ _ heq)

theorem clamp_of_range (v : Int) (h0 : 0 ≤ v) (h1 : v ≤ 255) :
    AdsLight.clamp v = v := by
  unfold AdsLight.clamp; omega

theorem rgbw_color_ints_tuple (r g b w : Int) :
    AdsLight.rgbw_color (PyVal.pyTuple [.pyInt r, .pyInt g, .pyInt b, .pyInt w]) =
      .ok (Option.some (AdsLight.clamp r, AdsLight.clamp g, AdsLight.clamp b, AdsLight.clamp w),
        if 0 ≤ r ∧ r ≤ 255 ∧ 0 ≤ g ∧ g ≤ 255 ∧ 0 ≤ b ∧ b ≤ 255 ∧ 0 ≤ w ∧ w ≤ 255
        then 0 else 1) := rfl

theorem rgbw_color_ints_list (r g b w : Int) :
    AdsLight.rgbw_color (PyVal.pyList [.pyInt r, .pyInt g, .pyInt b, .pyInt w]) =
      .ok (Option.some (AdsLight.clamp r, AdsLight.clamp g, AdsLight.clamp b, AdsLight.clamp w),
        if 0 ≤ r ∧ r ≤ 255 ∧ 0 ≤ g ∧ g ≤ 255 ∧ 0 ≤ b ∧ b ≤ 255 ∧ 0 ≤ w ∧ w ≤ 255
        then 0 else 1) := rfl

theorem rgbw_color_ne_error (rgbw : PyVal) (e : PyExc) :
    AdsLight.rgbw_color rgbw ≠ .error e := by
  intro h
  unfold AdsLight.rgbw_color at h
  repeat' split at h
  all_goals simp_all
  rename_i e' hne1 hne2 heq
  rcases coerceRGBW_error_cases _ _ _ _ _ heq with h1 | h1 <;> simp_all

theorem rgbw_color_shape_mismatch (rgbw : PyVal) (hn : rgbw ≠ PyVal.pyNone)
    (hs : ¬ (isTupleOrList rgbw = true ∧ (seqElems rgbw).length = 4)) :
    AdsLight.rgbw_color rgbw = .ok (Option.none, 1) := by
  cases rgbw <;> simp_all [AdsLight.rgbw_color, isTupleOrList, seqElems]
  all_goals
    rename_i xs
    rcases xs with _ | ⟨a, _ | ⟨b, _ | ⟨c, _ | ⟨d, _ | ⟨f, rest⟩⟩⟩⟩⟩ <;> simp_all

theorem rgbw_color_coercion_failure (rgbw : PyVal) (a0 a1 a2 a3 : PyVal) (e : PyExc)
    (ht : isTupleOrList rgbw = true) (hseq : seqElems rgbw = [a0, a1, a2, a3])
    (hc : AdsLight.coerceRGBW a0 a1 a2 a3 = .error e) :
    AdsLight.rgbw_color rgbw = .ok (Option.none, 1) := by
  rcases coerceRGBW_error_cases _ _ _ _ _ hc with he | he <;> subst he <;>
    cases rgbw <;> simp_all [AdsLight.rgbw_color, isTupleOrList, seqElems]

/-! Claim theorems. -/

/-- C1: the light color-read `AdsLight.rgbw_color` never raises an
exception: every stored raw sample yields an `.ok` result; a sample that is
not a 4-element tuple or list yields absence plus one logged warning; and a
4-element tuple or list one of whose elements fails integer coercion yields
absence plus one logged warning. -/
theorem rgbw_color_never_raises (rgbw : PyVal) :
    (∃ out, AdsLight.rgbw_color rgbw = .ok out) ∧
    (rgbw ≠ PyVal.pyNone → ¬ (isTupleOrList rgbw = true ∧ (seqElems rgbw).length = 4) →
      AdsLight.rgbw_color rgbw = .ok (Option.none, 1)) ∧
    (∀ a0 a1 a2 a3 e, isTupleOrList rgbw = true → seqElems rgbw = [a0, a1, a2, a3] →
      AdsLight.coerceRGBW a0 a1 a2 a3 = .error e →
      AdsLight.rgbw_color rgbw = .ok (Option.none, 1)) := by
  refine ⟨?_, rgbw_color_shape_mismatch rgbw,
    fun a0 a1 a2 a3 e ht hseq hc => rgbw_color_coercion_failure rgbw a0 a1 a2 a3 e ht hseq hc⟩
  cases hr : AdsLight.rgbw_color rgbw with
  | ok out => exact ⟨out, rfl⟩
  | error e => exact absurd hr (rgbw_color_ne_error rgbw e)

/-- Witness for C1: a non-sequence sample and a sample with a non-numeric
element both degrade to absence plus one warning. -/
theorem rgbw_color_never_raises_witness :
    AdsLight.rgbw_color (PyVal.pyStr "bad") = .ok (Option.none, 1) ∧
    AdsLight.rgbw_color (PyVal.pyTuple [PyVal.pyNone, PyVal.pyInt 1, PyVal.pyInt 2, PyVal.pyInt 3])
      = .ok (Option.none, 1) :=
  ⟨(rgbw_color_never_raises (PyVal.pyStr "bad")).2.1 (by simp) (by simp [isTupleOrList]),
   (rgbw_color_never_raises
      (PyVal.pyTuple [PyVal.pyNone, PyVal.pyInt 1, PyVal.pyInt 2, PyVal.pyInt 3])).2.2
     PyVal.pyNone (PyVal.pyInt 1) (PyVal.pyInt 2) (PyVal.pyInt 3) PyExc.typeError
     rfl rfl rfl⟩

/-- C2: a 4-element integer sample whose four elements all lie in
`[0,255]` is returned unchanged as the ordered `(R, G, B, W)` tuple, with no
warning, whether stored as tuple or list. -/
theorem rgbw_color_in_range_id (r g b w : Int)
    (hr : 0 ≤ r ∧ r ≤ 255) (hg : 0 ≤ g ∧ g ≤ 255)
    (hb : 0 ≤ b ∧ b ≤ 255) (hw : 0 ≤ w ∧ w ≤ 255) :
    AdsLight.rgbw_color (PyVal.pyTuple [.pyInt r, .pyInt g, .pyInt b, .pyInt w])
      = .ok (Option.some (r, g, b, w), 0) ∧
    AdsLight.rgbw_color (PyVal.pyList [.pyInt r, .pyInt g, .pyInt b, .pyInt w])
      = .ok (Option.some (r, g, b, w), 0) := by
  obtain ⟨hr0, hr1⟩ := hr
  obtain ⟨hg0, hg1⟩ := hg
  obtain ⟨hb0, hb1⟩ := hb
  obtain ⟨hw0, hw1⟩ := hw
  rw [rgbw_color_ints_tuple, rgbw_color_ints_list,
    if_pos ⟨hr0, hr1, hg0, hg1, hb0, hb1, hw0, hw1⟩,
    clamp_of_range r hr0 hr1, clamp_of_range g hg0 hg1,
    clamp_of_range b hb0 hb1, clamp_of_range w hw0 hw1]
  exact ⟨rfl, rfl⟩

/-- Witness for C2 at the in-range sample `(1, 2, 3, 4)`. -/
theorem rgbw_color_in_range_id_witness :
    AdsLight.rgbw_color (PyVal.pyTuple [.pyInt 1, .pyInt 2, .pyInt 3, .pyInt 4])
      = .ok (Option.some (1, 2, 3, 4), 0) :=
  (rgbw_color_in_range_id 1 2 3 4 (by omega) (by omega) (by omega) (by omega)).1

/-- C3: a 4-element integer sample with at least one element outside
`[0,255]` is not discarded: the element-wise clamp to `[0,255]` is returned
and exactly one warning is logged; in particular `(300, -5, 128, 256)`
yields `(255, 0, 128, 255)` with one warning. -/
theorem rgbw_color_clamps (r g b w : Int)
    (hout : ¬ (0 ≤ r ∧ r ≤ 255 ∧ 0 ≤ g ∧ g ≤ 255 ∧ 0 ≤ b ∧ b ≤ 255 ∧ 0 ≤ w ∧ w ≤ 255)) :
    AdsLight.rgbw_color (PyVal.pyTuple [.pyInt r, .pyInt g, .pyInt b, .pyInt w])
      = .ok (Option.some (AdsLight.clamp r, AdsLight.clamp g, AdsLight.clamp b, AdsLight.clamp w), 1) ∧
    AdsLight.rgbw_color (PyVal.pyList [.pyInt r, .pyInt g, .pyInt b, .pyInt w])
      = .ok (Option.some (AdsLight.clamp r, AdsLight.clamp g, AdsLight.clamp b, AdsLight.clamp w), 1) ∧
    AdsLight.rgbw_color (PyVal.pyTuple [.pyInt 300, .pyInt (-5), .pyInt 128, .pyInt 256])
      = .ok (Option.some (255, 0, 128, 255), 1) := by
  refine ⟨?_, ?_, rfl⟩
  · rw [rgbw_color_ints_tuple, if_neg hout]
  · rw [rgbw_color_ints_list, if_neg hout]

/-- Witness for C3 at the out-of-range sample `(300, -5, 128, 256)`. -/
theorem rgbw_color_clamps_witness :
    AdsLight.rgbw_color (PyVal.pyTuple [.pyInt 300, .pyInt (-5), .pyInt 128, .pyInt 256])
      = .ok (Option.some (255, 0, 128, 255), 1) :=
  (rgbw_color_clamps 300 (-5) 128 256 (by omega)).2.2

/-- C4: the capability mode chosen by `AdsLight.__init__` depends only on
which optional variables were supplied, with color taking priority: a
configured color variable forces RGBW even when a brightness variable is
also configured; otherwise a configured brightness variable gives
brightness-only; otherwise on/off only. -/
theorem lightColorMode_priority (bv cv : Option String) :
    (cv.isSome → AdsLight.lightColorMode bv cv = AdsLight.ColorMode.RGBW) ∧
    (cv = Option.none → bv.isSome →
      AdsLight.lightColorMode bv cv = AdsLight.ColorMode.BRIGHTNESS) ∧
    (cv = Option.none → bv = Option.none →
      AdsLight.lightColorMode bv cv = AdsLight.ColorMode.ONOFF) := by
  cases cv <;> cases bv <;> simp [AdsLight.lightColorMode]

/-- Witness for C4: both variables configured still selects RGBW. -/
theorem lightColorMode_priority_witness :
    AdsLight.lightColorMode (some "bvar") (some "cvar") = AdsLight.ColorMode.RGBW :=
  (lightColorMode_priority (some "bvar") (some "cvar")).1 (by simp)

/-- C5: the writes issued by `AdsLight.turn_on` are exactly: the status
write of `True` (always); a brightness write of the supplied value iff a
brightness variable is configured and a brightness value was supplied,
regardless of the capability mode; and a color write iff a color variable
is configured, a color value was supplied and it has exactly 4 elements.
With no brightness and no color variable only the status write occurs; with
brightness configured and supplied and no color value, exactly the two
writes status then brightness occur. -/
theorem turn_on_write_set (v : String) (bv cv : Option String)
    (b : Option Int) (c : Option (List Int)) :
    (AdsLight.statusWrite v ∈ AdsLight.turn_on v bv cv b c) ∧
    ((∃ w ∈ AdsLight.turn_on v bv cv b c, w.plctype = PlcType.PLCTYPE_UINT) ↔
      (bv.isSome ∧ b.isSome)) ∧
    (∀ bvar bval, bv = some bvar → b = some bval →
      Write.mk bvar (WriteVal.vint bval) PlcType.PLCTYPE_UINT ∈ AdsLight.turn_on v bv cv b c) ∧
    ((∃ w ∈ AdsLight.turn_on v bv cv b c, w.plctype = PlcType.PLCTYPE_ARR_UINT4) ↔
      (cv.isSome ∧ ∃ col, c = some col ∧ col.length = 4)) ∧
    ((AdsLight.turn_on v bv cv b c).length =
      1 + (if bv.isSome && b.isSome then 1 else 0)
        + (if cv.isSome && c.elim false (fun col => col.length == 4) then 1 else 0)) ∧
    (bv = Option.none → cv = Option.none →
      AdsLight.turn_on v bv cv b c = [AdsLight.statusWrite v]) ∧
    (∀ bvar bval, bv = some bvar → b = some bval → c = Option.none →
      AdsLight.turn_on v bv cv b c =
        [AdsLight.statusWrite v, Write.mk bvar (WriteVal.vint bval) PlcType.PLCTYPE_UINT]) ∧
    (∀ cvar col, cv = some cvar → c = some col → col.length = 4 →
      Write.mk cvar (WriteVal.varr (col.map c_uint16)) PlcType.PLCTYPE_ARR_UINT4 ∈
        AdsLight.turn_on v bv cv b c) ∧
    (∀ cvar col, cv = some cvar → c = some col →
      ∀ w ∈ AdsLight.turn_on v bv cv b c, w.plctype = PlcType.PLCTYPE_ARR_UINT4 →
        w = Write.mk cvar (WriteVal.varr (col.map c_uint16)) PlcType.PLCTYPE_ARR_UINT4) := by
  rcases bv with _ | bvar <;> rcases b with _ | bval <;>
    rcases cv with _ | cvar <;> rcases c with _ | col <;>
    simp_all [AdsLight.turn_on, AdsLight.statusWrite] <;>
    (try by_cases hlen : col.length = 4) <;> simp_all

/-- Witness for C5: brightness configured and supplied, no color value,
gives exactly the status write then the brightness write; and a supplied
4-element color with a configured color variable is written to that
variable. -/
theorem turn_on_write_set_witness :
    (AdsLight.turn_on "s" (some "b") Option.none (some 5) Option.none =
      [AdsLight.statusWrite "s", Write.mk "b" (WriteVal.vint 5) PlcType.PLCTYPE_UINT]) ∧
    Write.mk "c" (WriteVal.varr [1, 2, 3, 4]) PlcType.PLCTYPE_ARR_UINT4 ∈
      AdsLight.turn_on "s" Option.none (some "c") Option.none (some [1, 2, 3, 4]) :=
  ⟨(turn_on_write_set "s" (some "b") Option.none (some 5) Option.none).2.2.2.2.2.2.1 "b" 5
      rfl rfl rfl,
   (turn_on_write_set "s" Option.none (some "c") Option.none
      (some [1, 2, 3, 4])).2.2.2.2.2.2.2.1 "c" [1, 2, 3, 4] rfl rfl rfl⟩

/-- C6: a turn-on command supplying a color value without exactly 4
elements, with a color variable configured, performs no color write but
still writes `True` to the status variable. -/
theorem turn_on_drops_bad_color (v : String) (bv : Option String) (cvar : String)
    (b : Option Int) (col : List Int) (hlen : col.length ≠ 4) :
    AdsLight.statusWrite v ∈ AdsLight.turn_on v bv (some cvar) b (some col) ∧
    ∀ w ∈ AdsLight.turn_on v bv (some cvar) b (some col),
      w.plctype ≠ PlcType.PLCTYPE_ARR_UINT4 := by
  rcases bv with _ | bvar <;> rcases b with _ | bval <;>
    simp_all [AdsLight.turn_on, AdsLight.statusWrite]

/-- Witness for C6 with a 3-element color payload. -/
theorem turn_on_drops_bad_color_witness :
    AdsLight.statusWrite "s" ∈
      AdsLight.turn_on "s" Option.none (some "c") Option.none (some [1, 2, 3]) ∧
    ∀ w ∈ AdsLight.turn_on "s" Option.none (some "c") Option.none (some [1, 2, 3]),
      w.plctype ≠ PlcType.PLCTYPE_ARR_UINT4 :=
  turn_on_drops_bad_color "s" Option.none "c" Option.none [1, 2, 3] (by decide)

/-- C7: `AdsSwitch.turn_off` with a distinct turn-off variable configured
issues exactly one write, of `True` (not `False`), to that variable, and
does not write the status variable; without one it issues exactly one write
of `False` to the status variable. -/
theorem switch_turn_off_writes (v : String) (toff : Option String) :
    (∀ offVar, toff = some offVar →
      AdsSwitch.turn_off v toff =
        [Write.mk offVar (WriteVal.vbool true) PlcType.PLCTYPE_BOOL] ∧
      (offVar ≠ v → ∀ w ∈ AdsSwitch.turn_off v toff, w.name ≠ v)) ∧
    (toff = Option.none →
      AdsSwitch.turn_off v toff =
        [Write.mk v (WriteVal.vbool false) PlcType.PLCTYPE_BOOL]) := by
  constructor
  · rintro offVar rfl
    refine ⟨rfl, ?_⟩
    intro hne w hw
    simp [AdsSwitch.turn_off] at hw
    subst hw
    simpa using hne
  · rintro rfl
    rfl

/-- Witness for C7 with a distinct turn-off variable. -/
theorem switch_turn_off_writes_witness :
    AdsSwitch.turn_off "status" (some "off") =
      [Write.mk "off" (WriteVal.vbool true) PlcType.PLCTYPE_BOOL] :=
  ((switch_turn_off_writes "status" (some "off")).1 "off" rfl).1

/-- C8: `AdsLight.turn_off` issues exactly one write, `False` to the status
variable, whatever variables are configured and whatever payload the
command carries; the brightness and color variables are never written. -/
theorem light_turn_off_writes (v : String) (bv cv : Option String)
    (b : Option Int) (c : Option (List Int)) :
    AdsLight.turn_off v bv cv b c =
      [Write.mk v (WriteVal.vbool false) PlcType.PLCTYPE_BOOL] ∧
    ∀ w ∈ AdsLight.turn_off v bv cv b c, w.plctype = PlcType.PLCTYPE_BOOL := by
  refine ⟨rfl, ?_⟩
  intro w hw
  simp [AdsLight.turn_off] at hw
  subst hw
  rfl

/-- C9: the `AdsLight.brightness` property returns the stored slot value
unchanged, with no clamping or range validation, and the slot initialised
by `AdsLight.__init__` reads as absent. -/
theorem brightness_read_unchanged (slot : Option Int) :
    AdsLight.brightness slot = slot ∧
    AdsLight.brightness AdsLight.initial_brightness_state = Option.none :=
  ⟨rfl, rfl⟩

/-- C10: the writes of `AdsLight.turn_on` occur in a fixed order: the
status write first, then any brightness write, then any color write. -/
theorem turn_on_write_order (v : String) (bv cv : Option String)
    (b : Option Int) (c : Option (List Int)) :
    ∃ bws cws, AdsLight.turn_on v bv cv b c = AdsLight.statusWrite v :: (bws ++ cws) ∧
      (∀ w ∈ bws, w.plctype = PlcType.PLCTYPE_UINT) ∧
      (∀ w ∈ cws, w.plctype = PlcType.PLCTYPE_ARR_UINT4) := by
  refine ⟨(match bv, b with
      | some bvar, some bval => [⟨bvar, .vint bval, .PLCTYPE_UINT⟩]
      | _, _ => []),
    (match cv, c with
      | some cvar, some col =>
        if col.length = 4 then
          [⟨cvar, .varr (col.map c_uint16), .PLCTYPE_ARR_UINT4⟩]
        else []
      | _, _ => []), ?_, ?_, ?_⟩
  · simp [AdsLight.turn_on]
  · rcases bv with _ | bvar <;> rcases b with _ | bval <;> simp
  · rcases cv with _ | cvar <;> rcases c with _ | col <;> simp

end AdsExtended
